import Mathlib

/-!
Shallow embedding of the two source files of this repository:
  * `yt/frontends/sph/data_structures.py` (particle domains, domain subsets,
    the octree-backed chunk planner of `ParticleGeometryHandler`), and
  * `src/lagos/BaseGridType.py` (`EnzoGridBase`: grid preparation, overlap
    masks, child masks, derived-field generation, cached derived state).

Machine floats of the source are embedded as exact rationals (`ℚ`); numpy
`rint` (round half to even) is modelled exactly; Python attribute lookup,
where a claim is about `AttributeError`s, is modelled by explicit tables of
the attribute names each `__init__` assigns.
-/

/-- Numpy `rint`: round to the nearest integer, ties to even. -/
def rint (q : ℚ) : ℤ :=
  let f : ℤ := ⌊q⌋
  let r : ℚ := q - (f : ℚ)
  if r < 1/2 then f
  else if 1/2 < r then f + 1
  else if f % 2 = 0 then f else f + 1

/-- Python `str.endswith`, on the character lists of the strings. -/
def pyEndsWith (s suf : String) : Bool :=
  suf.data.isSuffixOf s.data

/-- Python `str.startswith`, on the character lists of the strings. -/
def pyStartsWith (s pre : String) : Bool :=
  pre.data.isPrefixOf s.data

/-! ### Particle side: `yt/frontends/sph/data_structures.py` -/

/-- Parameter-file data read by the particle geometry layer
(`pf.domain_left_edge`, `pf.domain_right_edge`, `pf.domain_dimensions`). -/
structure ParticleStaticOutput where
  domain_left_edge : Fin 3 → ℚ
  domain_right_edge : Fin 3 → ℚ
  domain_dimensions : Fin 3 → ℕ

/-- A `ParticleDomainFile` as built by its `__init__`: one file-backed shard.
(`pf` and `io` are object references; the data this core reads from the file
object is the fields below.) -/
structure ParticleDomainFile where
  domain_filename : String
  domain_number : ℕ
  total_particles : ℕ
deriving DecidableEq

/-- Attribute names assigned by `ParticleDomainFile.__init__`
(`self.pf`, `self.io`, `self.domain_filename`, `self.domain_number`,
`self.total_particles`). -/
def particleDomainFileAttrNames : List String :=
  ["pf", "io", "domain_filename", "domain_number", "total_particles"]

/-- A `ParticleDomainSubset` as built by its `__init__`:
`(domain, mask, cell_count, oct_handler)`.  The mask is the opaque
octree-engine selection token. -/
structure ParticleDomainSubset where
  domain : ParticleDomainFile
  mask : ℕ
  cell_count : ℕ
deriving DecidableEq

/-- Attribute names assigned by `ParticleDomainSubset.__init__`
(`self.domain`, `self.mask`, `self.cell_count`, `self.oct_handler`). -/
def particleDomainSubsetAttrNames : List String :=
  ["domain", "mask", "cell_count", "oct_handler"]

/-- Python attribute lookup against a table of assigned attribute names:
a name outside the table raises `AttributeError` naming the attribute. -/
def getattrOn (attrNames : List String) (name : String) : Except String Unit :=
  if name ∈ attrNames then Except.ok () else Except.error name

/-- Attribute accesses performed by `ParticleDomainSubset.icoords`, in Python
evaluation order: `self.oct_handler`, then the arguments `self.domain`
(then `.domain_id` on it), `self.mask`, `self.cell_count`,
`self.level_counts` (then `.copy()`). -/
def icoordsAttrTrace : Except String Unit := do
  getattrOn particleDomainSubsetAttrNames "oct_handler"
  getattrOn particleDomainSubsetAttrNames "domain"
  getattrOn particleDomainFileAttrNames "domain_id"
  getattrOn particleDomainSubsetAttrNames "mask"
  getattrOn particleDomainSubsetAttrNames "cell_count"
  getattrOn particleDomainSubsetAttrNames "level_counts"

/-- Attribute accesses performed by `ParticleDomainSubset.fcoords` (same
argument list as `icoords`). -/
def fcoordsAttrTrace : Except String Unit := icoordsAttrTrace

/-- Attribute accesses performed by `ParticleDomainSubset.ires` (same
argument list as `icoords`). -/
def iresAttrTrace : Except String Unit := icoordsAttrTrace

/-- Width of one cell at refinement level `lvl` along axis `i`, as computed
inside `ParticleDomainSubset.fwidth`: `base_dx = 1.0/pf.domain_dimensions`
and `widths[:,i] = base_dx[i] / 2**ires`. -/
def fwidthAt (pf : ParticleStaticOutput) (lvl : ℕ) (i : Fin 3) : ℚ :=
  (1 / (pf.domain_dimensions i : ℚ)) / 2 ^ lvl

/-- The `fwidth` accessor: one width row per selected cell, the octree
engine's `ires` result (one refinement level per cell) taken as input. -/
def fwidth (pf : ParticleStaticOutput) (ires : List ℕ) : List (Fin 3 → ℚ) :=
  ires.map (fun lvl => fun i => fwidthAt pf lvl i)

/-- Cell width as the specification's text states it:
`(domain_right_edge[i]-domain_left_edge[i])/domain_dimensions[i]/2^level`.
Stated for the refinement comparison with `fwidthAt`. -/
def fwidthSpecAt (pf : ParticleStaticOutput) (lvl : ℕ) (i : Fin 3) : ℚ :=
  ((pf.domain_right_edge i - pf.domain_left_edge i) / (pf.domain_dimensions i : ℚ)) / 2 ^ lvl

/-- Result of `ParticleGeometryHandler._identify_base_chunk`: the list of
subsets stored in `dobj._chunk_info` and the total stored in `dobj.size`. -/
structure ChunkInfo where
  subsets : List ParticleDomainSubset
  size : ℕ

/-- The body of `_identify_base_chunk` (first call, `_chunk_info is None`):
`subsets = [ParticleDomainSubset(d, mask, c) for d, c in zip(domains, counts)
if c > 0]` and `dobj.size = sum(counts)`, where `counts` is the octree
engine's `count_cells` result (one count per domain, in domain order). -/
def identify_base_chunk (domains : List ParticleDomainFile) (mask : ℕ)
    (counts : List ℕ) : ChunkInfo :=
  { subsets := ((domains.zip counts).filter (fun dc => 0 < dc.2)).map
      (fun dc => { domain := dc.1, mask := mask, cell_count := dc.2 })
    size := counts.sum }

/-- Errors raised by the chunking entry points. -/
inductive ChunkError
  | notImplemented
deriving DecidableEq

/-- One `YTDataChunk` as yielded by `_chunk_all` / `_chunk_io`. -/
structure YTDataChunk where
  chunk_type : String
  objs : List ParticleDomainSubset
  size : ℕ

/-- The body of `_chunk_all`: one chunk wrapping every subset. -/
def chunk_all (info : ChunkInfo) : List YTDataChunk :=
  [{ chunk_type := "all", objs := info.subsets, size := info.size }]

/-- The body of `_chunk_io`: one chunk per subset. -/
def chunk_io (info : ChunkInfo) : List YTDataChunk :=
  info.subsets.map (fun s => { chunk_type := "io", objs := [s], size := s.cell_count })

/-- The body of `_chunk_spatial(dobj, ngz)`: `raise NotImplementedError`,
for every data object and every ghost-zone count. -/
def chunk_spatial (info : ChunkInfo) (ngz : ℕ) : Except ChunkError (List YTDataChunk) :=
  Except.error ChunkError.notImplemented

/-- Operations invoked on the shared octree index, as trace events. -/
inductive OctEvent
  | insertDomain (n : ℕ)
  | finalizeIndex
  | linearlyCount
  | selectOcts
  | countCells
deriving DecidableEq

/-- Octree-index operations performed by `_initialize_oct_handler`, in program
order: `io._initialize_octree(dom, oct_handler)` for each domain in domain
order, then `oct_handler.finalize()`, then `oct_handler.linearly_count()`. -/
def initialize_oct_handler_trace (ndoms : ℕ) : List OctEvent :=
  ((List.range ndoms).map OctEvent.insertDomain) ++
    [OctEvent.finalizeIndex, OctEvent.linearlyCount]

/-- Octree-index operations performed by one `_identify_base_chunk` call:
`selector.select_octs(oct_handler)` then `oct_handler.count_cells(...)`. -/
def identify_base_chunk_trace : List OctEvent :=
  [OctEvent.selectOcts, OctEvent.countCells]

/-- Octree-index operations of one run: handler construction
(`_initialize_oct_handler`) followed by `nqueries` base-chunk
identifications. -/
def run_trace (ndoms nqueries : ℕ) : List OctEvent :=
  initialize_oct_handler_trace ndoms ++
    (List.range nqueries).flatMap (fun _ => identify_base_chunk_trace)

/-! ### Grid side: `src/lagos/BaseGridType.py` -/

/-- Modelled from the spec: the in-plane axis tables `x_dict`/`y_dict`
imported from `yt.lagos` are not under `src/`; the spec fixes the mapping
axis → (x-axis, y-axis) as 0→(1,2), 1→(0,2), 2→(0,1). -/
def x_dict : Fin 3 → Fin 3 := ![1, 0, 0]

/-- Modelled from the spec: second in-plane axis of the `x_dict` mapping. -/
def y_dict : Fin 3 → Fin 3 := ![2, 2, 1]

/-- Edge data of a grid, as used by `generateOverlapMasks`. -/
structure GridEdges where
  LeftEdge : Fin 3 → ℚ
  RightEdge : Fin 3 → ℚ

/-- One entry of the mask computed by `EnzoGridBase.generateOverlapMasks`:
`cond1 & cond2 & cond3 & cond4` for a single candidate with edges
`(le, re)`, i.e. `RightEdge[x] > LE[:,x] and LeftEdge[x] < RE[:,x] and
RightEdge[y] > LE[:,y] and LeftEdge[y] < RE[:,y]`. -/
def overlapEntry (self : GridEdges) (axis : Fin 3) (le re : Fin 3 → ℚ) : Bool :=
  let x := x_dict axis
  let y := y_dict axis
  (decide (self.RightEdge x > le x) && decide (self.LeftEdge x < re x)) &&
  (decide (self.RightEdge y > le y) && decide (self.LeftEdge y < re y))

/-- The full mask of `generateOverlapMasks`: elementwise over the candidate
edge arrays `LE`, `RE` (one boolean per candidate). -/
def generateOverlapMasks (self : GridEdges) (axis : Fin 3)
    (LE RE : List (Fin 3 → ℚ)) : List Bool :=
  (LE.zip RE).map (fun lr => overlapEntry self axis lr.1 lr.2)

/-- Hierarchy-table row for one grid, as read by `_generateChildMask`
(`hierarchy.gridLeftEdge`, `hierarchy.gridRightEdge`, grid `Level`). -/
structure GridBox where
  LeftEdge : Fin 3 → ℚ
  RightEdge : Fin 3 → ℚ
  Level : ℤ

/-- The attributes of `self` that `_generateChildMask` reads. -/
structure SelfGrid where
  LeftEdge : Fin 3 → ℚ
  RightEdge : Fin 3 → ℚ
  Level : ℤ
  ActiveDimensions : Fin 3 → ℕ
  dx : ℚ

/-- Candidate-children selection of `_generateChildMask`: closed-interval
box overlap on all three axes and `gridLevels == self.Level + 1`. -/
def isCandidateChild (self : SelfGrid) (g : GridBox) : Bool :=
  (decide (self.RightEdge 0 ≥ g.LeftEdge 0) && decide (self.LeftEdge 0 ≤ g.RightEdge 0)) &&
  (decide (self.RightEdge 1 ≥ g.LeftEdge 1) && decide (self.LeftEdge 1 ≤ g.RightEdge 1)) &&
  (decide (self.RightEdge 2 ≥ g.LeftEdge 2) && decide (self.LeftEdge 2 ≤ g.RightEdge 2)) &&
  decide (g.Level = self.Level + 1)

/-- Numpy slice-bound normalization for an axis of length `n`: negative
bounds wrap by `n`, then both are clamped to `[0, n]`. -/
def sliceNorm (n : ℕ) (i : ℤ) : ℤ :=
  if i < 0 then max 0 (i + n) else min i (n : ℤ)

/-- Processing of one candidate child inside the `_generateChildMask` loop:
skip it if `child.Level > self.Level + 1`; otherwise zero the mask over the
index box `[rint((child.LeftEdge-self.LeftEdge)/self.dx) :
rint((child.RightEdge-self.LeftEdge)/self.dx)]` on each axis (numpy slice
semantics). -/
def applyChildToMask (self : SelfGrid) (mask : (Fin 3 → ℕ) → ℤ)
    (child : GridBox) : (Fin 3 → ℕ) → ℤ :=
  if child.Level > self.Level + 1 then mask
  else fun idx =>
    if (List.finRange 3).all (fun i =>
        let si := rint ((child.LeftEdge i - self.LeftEdge i) / self.dx)
        let ei := rint ((child.RightEdge i - self.LeftEdge i) / self.dx)
        decide (sliceNorm (self.ActiveDimensions i) si ≤ (idx i : ℤ)) &&
        decide ((idx i : ℤ) < sliceNorm (self.ActiveDimensions i) ei))
    then 0 else mask idx

/-- The mask computed by `_generateChildMask`: all ones over
`ActiveDimensions`, then each candidate child zeroes its footprint box. -/
def generateChildMask (self : SelfGrid) (hierGrids : List GridBox) :
    (Fin 3 → ℕ) → ℤ :=
  (hierGrids.filter (fun g => isCandidateChild self g)).foldl
    (applyChildToMask self) (fun _ => 1)

/-- The attributes of an already-prepared parent grid object that the
reconstruction branch of `prepareGrid` reads (`Parent.LeftEdge`,
`Parent.dx`, `Parent.dy`, `Parent.dz`). -/
structure ParentGridAttrs where
  LeftEdge : Fin 3 → ℚ
  dx : ℚ
  dy : ℚ
  dz : ℚ

/-- Grid attributes populated by `EnzoGridBase.prepareGrid`. -/
structure PreparedGrid where
  Dimensions : Fin 3 → ℤ
  StartIndices : Fin 3 → ℤ
  EndIndices : Fin 3 → ℤ
  LeftEdge : Fin 3 → ℚ
  RightEdge : Fin 3 → ℚ
  Level : ℤ
  Time : ℚ
  NumberOfParticles : ℤ
  ActiveDimensions : Fin 3 → ℤ
  Children : List ℕ
  Parent : Option ParentGridAttrs
  dx : ℚ
  dy : ℚ
  dz : ℚ

/-- The hierarchy-wide tables `prepareGrid` reads, indexed by `id-1`
(`gridReverseTree` holds the parent id, `None`/`-1` meaning no parent;
`grids` holds the grid objects for parent lookup). -/
structure HierarchyTables where
  gridDimensions : ℕ → Fin 3 → ℤ
  gridStartIndices : ℕ → Fin 3 → ℤ
  gridEndIndices : ℕ → Fin 3 → ℤ
  gridLeftEdge : ℕ → Fin 3 → ℚ
  gridRightEdge : ℕ → Fin 3 → ℚ
  gridLevels : ℕ → ℤ
  gridTimes : ℕ → ℚ
  gridNumberOfParticles : ℕ → ℤ
  gridTree : ℕ → List ℕ
  gridReverseTree : ℕ → Option ℤ
  grids : ℕ → ParentGridAttrs

/-- The unconditional part of `prepareGrid`: copy the grid's attributes out
of the hierarchy tables, derive `ActiveDimensions`, the parent link and the
cell sizes `dx`, `dy`, `dz` (the write into `h.gridDxs` is a hierarchy-side
effect not modelled here). -/
def prepareGridBase (h : HierarchyTables) (id : ℕ) : PreparedGrid :=
  let s := h.gridStartIndices (id - 1)
  let e := h.gridEndIndices (id - 1)
  let le := h.gridLeftEdge (id - 1)
  let re := h.gridRightEdge (id - 1)
  { Dimensions := h.gridDimensions (id - 1)
    StartIndices := s
    EndIndices := e
    LeftEdge := le
    RightEdge := re
    Level := h.gridLevels (id - 1)
    Time := h.gridTimes (id - 1)
    NumberOfParticles := h.gridNumberOfParticles (id - 1)
    ActiveDimensions := fun i => e i - s i + 1
    Children := h.gridTree (id - 1)
    Parent :=
      match h.gridReverseTree (id - 1) with
      | none => none
      | some pID => if pID = -1 then none else some (h.grids ((pID - 1).toNat))
    dx := (re 0 - le 0) / ((e 0 - s 0 + 1 : ℤ) : ℚ)
    dy := (re 1 - le 1) / ((e 1 - s 1 + 1 : ℤ) : ℚ)
    dz := (re 2 - le 2) / ((e 2 - s 2 + 1 : ℤ) : ℚ) }

/-- The whole of `prepareGrid`, with the `ytcfg` flag
`lagos/ReconstructHierarchy` passed explicitly: when the flag is set, a grid
with no parent returns early; otherwise the cell sizes become half the
parent's, `LeftEdge` snaps to the nearest parent-cell boundary
(`Parent.LeftEdge + Parent.dx * rint((LeftEdge-Parent.LeftEdge)/Parent.dx)`)
and `RightEdge` is rebuilt as `LeftEdge + ActiveDimensions*self.dx` (the
scalar `self.dx`, on every axis). -/
def prepareGrid (reconstructHierarchy : Bool) (h : HierarchyTables) (id : ℕ) :
    PreparedGrid :=
  let g := prepareGridBase h id
  if reconstructHierarchy then
    match g.Parent with
    | none => g
    | some p =>
      let dx' := p.dx / 2
      let dy' := p.dy / 2
      let dz' := p.dz / 2
      let pli : Fin 3 → ℤ := fun i => rint ((g.LeftEdge i - p.LeftEdge i) / p.dx)
      let le' : Fin 3 → ℚ := fun i => p.LeftEdge i + p.dx * (pli i : ℚ)
      let re' : Fin 3 → ℚ := fun i => le' i + (g.ActiveDimensions i : ℚ) * dx'
      { g with dx := dx', dy := dy', dz := dz', LeftEdge := le', RightEdge := re' }
  else g

/-- The intended cache setter `_set_myChildMask(self, newCM)`: warn (return
flag `true`) iff the raw slot `__myChildMask` already holds a computed value,
then store `newCM` into the slot unconditionally. -/
def set_myChildMask (old newCM : Option ℤ) : Option ℤ × Bool :=
  (newCM, decide (old ≠ none))

/-- The property table of `EnzoGridBase.myChildMask`:
`property(fget=_get_myChildMask, fdel=_del_myChildMask)` — a getter and a
deleter, no setter. -/
structure PropertyWiring where
  hasGetter : Bool
  hasSetter : Bool
  hasDeleter : Bool

/-- Wiring of the `myChildMask` property as declared in the source. -/
def myChildMask_property : PropertyWiring :=
  { hasGetter := true, hasSetter := false, hasDeleter := true }

/-- Cache-relevant state of one `EnzoGridBase` instance: the instance
`__dict__` (relevant keys only, opaque `ℤ`-coded values) and the raw slot
`_EnzoGridBase__myChildMask`. -/
structure GridInstanceState where
  instDict : List (String × ℤ)
  raw_myChildMask : Option ℤ

/-- Python assignment `instance.myChildMask = v` on this (old-style) class:
the property defines no `fset` and old-style classes never route assignment
through descriptors, so the value lands in the instance `__dict__` and no
warning is ever emitted (flag always `false`). -/
def assign_myChildMask (g : GridInstanceState) (v : ℤ) : GridInstanceState × Bool :=
  ({ g with instDict := ("myChildMask", v) :: g.instDict }, false)

/-- Python read `instance.myChildMask`: the instance `__dict__` shadows the
class property; otherwise the property getter `_get_myChildMask` returns the
raw slot, generating it first (`generated` abstracts the
`_generateChildMask` result) when the slot is still `None`. -/
def read_myChildMask (g : GridInstanceState) (generated : ℤ) : ℤ :=
  match (g.instDict.find? (fun kv => kv.1 == "myChildMask")) with
  | some kv => kv.2
  | none =>
    match g.raw_myChildMask with
    | some m => m
    | none => generated

/-- Branch table of `EnzoGridBase.generateField`, tracking which names are
resident in the grid's field cache (`self.data`).  Matched derivation
branches store the requested field (their value computations delegate to
already-resident fields, the registry and the chemistry tables, outside this
core); the fall-through branch raises `KeyError(fieldName)`, returned as the
second component, and leaves the cache untouched. -/
def generateField (fieldInfoKeys : List String) (resident : List String)
    (fieldName : String) : List String × Option String :=
  if pyEndsWith fieldName "Fraction" then (fieldName :: resident, none)
  else if pyEndsWith fieldName "Squared" then (fieldName :: resident, none)
  else if pyEndsWith fieldName "_vcomp" then (fieldName :: resident, none)
  else if pyEndsWith fieldName "_tcomp" then (fieldName :: resident, none)
  else if pyEndsWith fieldName "Abs" then (fieldName :: resident, none)
  else if fieldName ∈ fieldInfoKeys then (fieldName :: resident, none)
  else if pyStartsWith fieldName "k" then (fieldName :: resident, none)
  else (resident, some fieldName)

/-! ### Concrete fixtures used by counterexamples and witnesses -/

/-- Parameter file with domain `[0,2]^3` and one root cell per axis: the
domain width is 2, not 1, on every axis. -/
def c1Pf : ParticleStaticOutput :=
  { domain_left_edge := fun _ => 0
    domain_right_edge := fun _ => 2
    domain_dimensions := fun _ => 1 }

/-- Parameter file with the unit domain `[0,1]^3` and 64 root cells. -/
def c1UnitPf : ParticleStaticOutput :=
  { domain_left_edge := fun _ => 0
    domain_right_edge := fun _ => 1
    domain_dimensions := fun _ => 64 }

/-- First domain file of the two-domain chunking example. -/
def c2d0 : ParticleDomainFile :=
  { domain_filename := "snap.0.hdf5", domain_number := 0, total_particles := 10 }

/-- Second domain file of the two-domain chunking example. -/
def c2d1 : ParticleDomainFile :=
  { domain_filename := "snap.1.hdf5", domain_number := 1, total_particles := 20 }

/-- The two domains of the chunking example. -/
def c2Domains : List ParticleDomainFile := [c2d0, c2d1]

/-- Per-domain `count_cells` result of the chunking example: 100 matching
cells in the first domain, none in the second. -/
def c2Counts : List ℕ := [100, 0]

/-- The coarse grid of the child-mask example: `LeftEdge (0,0,0)`,
`RightEdge (1,1,1)`, `ActiveDimensions (4,4,4)`, `dx = 1/4`, level 0. -/
def c5Self : SelfGrid :=
  { LeftEdge := fun _ => 0
    RightEdge := fun _ => 1
    Level := 0
    ActiveDimensions := fun _ => 4
    dx := 1/4 }

/-- The single child grid of the child-mask example: `LeftEdge
(1/4,1/4,1/4)`, `RightEdge (3/4,3/4,3/4)`, level 1. -/
def c5Child : GridBox :=
  { LeftEdge := fun _ => 1/4, RightEdge := fun _ => 3/4, Level := 1 }

/-- Hierarchy edge/level tables of the child-mask example: the coarse grid
itself and its one child. -/
def c5Grids : List GridBox :=
  [{ LeftEdge := fun _ => 0, RightEdge := fun _ => 1, Level := 0 }, c5Child]

/-- Overlap-test fixture: the unit box. -/
def c6A : GridEdges := { LeftEdge := fun _ => 0, RightEdge := fun _ => 1 }

/-- Overlap-test fixture: a box properly overlapping `c6A` on every axis. -/
def c6B : GridEdges := { LeftEdge := fun _ => 1/2, RightEdge := fun _ => 3/2 }

/-- Overlap-test fixture: a box exactly touching `c6A` (shared face). -/
def c6T : GridEdges := { LeftEdge := fun _ => 1, RightEdge := fun _ => 2 }

/-- Parent grid object of the `prepareGrid` reconstruction example. -/
def c7Parent : ParentGridAttrs :=
  { LeftEdge := fun _ => 0, dx := 1/2, dy := 1/2, dz := 1/2 }

/-- Hierarchy tables with two grids: grid id 1 has no parent, grid id 2 has
parent id 1 (whose prepared object is `c7Parent`). -/
def c7Tables : HierarchyTables :=
  { gridDimensions := fun _ _ => 4
    gridStartIndices := fun _ _ => 0
    gridEndIndices := fun _ _ => 3
    gridLeftEdge := fun n _ => if n = 1 then 1/2 else 0
    gridRightEdge := fun n _ => if n = 1 then 3/2 else 2
    gridLevels := fun n => if n = 1 then 1 else 0
    gridTimes := fun _ => 0
    gridNumberOfParticles := fun _ => 0
    gridTree := fun _ => []
    gridReverseTree := fun n => if n = 1 then some 1 else none
    grids := fun _ => c7Parent }

/-- Grid instance whose `__myChildMask` slot already holds a computed mask
(coded `7`) and whose instance `__dict__` holds no shadowing entry yet. -/
def c4Grid : GridInstanceState := { instDict := [], raw_myChildMask := some 7 }

/-! ### Helper lemmas -/

/-- Filtering the positive-count pairs out of a zip and keeping the counts is
the same as filtering the count list, when the lists have equal length. -/
theorem zip_filter_pos_map_snd {α : Type} :
    ∀ (ds : List α) (cs : List ℕ), ds.length = cs.length →
      (((ds.zip cs).filter (fun dc => 0 < dc.2)).map Prod.snd)
        = cs.filter (fun c => 0 < c) := by
  intro ds
  induction ds with
  | nil =>
    intro cs h
    cases cs with
    | nil => rfl
    | cons c cs => simp at h
  | cons d ds ih =>
    intro cs h
    cases cs with
    | nil => simp at h
    | cons c cs =>
      have h' : ds.length = cs.length := by simpa using h
      by_cases hc : 0 < c
      · simp [List.filter_cons, hc, ih cs h']
      · simp [List.filter_cons, hc, ih cs h']

/-- Dropping the zero entries of a list of naturals keeps its sum. -/
theorem sum_filter_pos (cs : List ℕ) :
    (cs.filter (fun c => 0 < c)).sum = cs.sum := by
  induction cs with
  | nil => rfl
  | cons c cs ih =>
    by_cases hc : 0 < c
    · simp [List.filter_cons, hc, ih]
    · have hc0 : c = 0 := Nat.eq_zero_of_not_pos hc
      simp [List.filter_cons, hc, hc0, ih]

/-- A pair in a zip comes from a common index of the two lists. -/
theorem mem_zip_get {α β : Type} :
    ∀ (ds : List α) (cs : List β) (d : α) (c : β), (d, c) ∈ ds.zip cs →
      ∃ i, ∃ h1 : i < ds.length, ∃ h2 : i < cs.length,
        ds.get ⟨i, h1⟩ = d ∧ cs.get ⟨i, h2⟩ = c := by
  intro ds
  induction ds with
  | nil => intro cs d c h; simp at h
  | cons a ds ih =>
    intro cs d c h
    cases cs with
    | nil => simp at h
    | cons b cs =>
      rcases List.mem_cons.mp h with h | h
      · obtain ⟨rfl, rfl⟩ := Prod.ext_iff.mp h
        exact ⟨0, by simp, by simp, rfl, rfl⟩
      · obtain ⟨i, h1, h2, hd, hc⟩ := ih cs d c h
        exact ⟨i + 1, by simpa using Nat.succ_lt_succ h1,
          by simpa using Nat.succ_lt_succ h2, hd, hc⟩

/-- Every event a base-chunk identification emits is a selector query. -/
theorem mem_query_events (nq : ℕ) (e : OctEvent)
    (he : e ∈ (List.range nq).flatMap (fun _ => identify_base_chunk_trace)) :
    e = OctEvent.selectOcts ∨ e = OctEvent.countCells := by
  rw [List.mem_flatMap] at he
  obtain ⟨_, _, he⟩ := he
  simpa [identify_base_chunk_trace] using he

/-! ### Claim theorems -/

/-- C1 (counterexample): on a domain of width 2 per axis, the width computed
by `fwidth` at level 0 differs from the spec's
`(domain_right_edge - domain_left_edge)/domain_dimensions` value: the code
normalizes by `1.0/domain_dimensions`, ignoring the domain edges. -/
theorem fwidth_ignores_domain_edges :
    fwidthAt c1Pf 0 0 ≠ fwidthSpecAt c1Pf 0 0 := by
  norm_num [fwidthAt, fwidthSpecAt, c1Pf]

/-- C1 (amended): the width `fwidth` returns along axis `i` for a cell at
refinement level `lvl` is `(1/domain_dimensions[i]) / 2^lvl`; this equals the
claimed `(domain_right_edge[i]-domain_left_edge[i])/domain_dimensions[i]/2^lvl`
exactly when the domain width on axis `i` is 1 (e.g. the code-default unit
box), and at level 0 it is `1/domain_dimensions[i]` with no halving. -/
theorem fwidth_eq_spec_on_unit_domain (pf : ParticleStaticOutput) (lvl : ℕ)
    (i : Fin 3)
    (h : pf.domain_right_edge i - pf.domain_left_edge i = 1) :
    fwidthAt pf lvl i = (1 / (pf.domain_dimensions i : ℚ)) / 2 ^ lvl ∧
    fwidthAt pf lvl i = fwidthSpecAt pf lvl i ∧
    fwidthAt pf 0 i = 1 / (pf.domain_dimensions i : ℚ) ∧
    fwidth pf [lvl] = [fun j => fwidthAt pf lvl j] := by
  refine ⟨rfl, ?_, ?_, rfl⟩
  · unfold fwidthAt fwidthSpecAt
    rw [h]
  · unfold fwidthAt
    norm_num

/-- C1 (witness for the amended claim): the unit-domain parameter file meets
the hypothesis, at level 3 on axis 1. -/
theorem fwidth_eq_spec_on_unit_domain_witness :
    fwidthAt c1UnitPf 3 1 = (1 / (c1UnitPf.domain_dimensions 1 : ℚ)) / 2 ^ 3 ∧
    fwidthAt c1UnitPf 3 1 = fwidthSpecAt c1UnitPf 3 1 ∧
    fwidthAt c1UnitPf 0 1 = 1 / (c1UnitPf.domain_dimensions 1 : ℚ) ∧
    fwidth c1UnitPf [3] = [fun j => fwidthAt c1UnitPf 3 j] :=
  fwidth_eq_spec_on_unit_domain c1UnitPf 3 1 (by norm_num [c1UnitPf])

/-- C3: on a `ParticleDomainSubset` as built by `__init__`, every call to
`icoords`, `fcoords` or `ires` fails with an `AttributeError`: the first
lookup to fail is `self.domain.domain_id` (`ParticleDomainFile` assigns only
`domain_number`), and `self.level_counts` is likewise never assigned by any
method of the class. -/
theorem subset_accessors_attribute_error :
    icoordsAttrTrace = Except.error "domain_id" ∧
    fcoordsAttrTrace = Except.error "domain_id" ∧
    iresAttrTrace = Except.error "domain_id" ∧
    "domain_id" ∉ particleDomainFileAttrNames ∧
    "level_counts" ∉ particleDomainSubsetAttrNames := by
  exact ⟨rfl, rfl, rfl, by decide, by decide⟩

/-- C4 (code evaluated at the failing input): re-assigning `myChildMask` on a
grid whose cache is already computed stores the new value but emits no
warning — the `myChildMask` property is declared without a setter and the
old-style class writes the instance `__dict__` directly — whereas the
intended setter `_set_myChildMask` would have warned on exactly this input. -/
theorem myChildMask_reassign_silent :
    (assign_myChildMask c4Grid 9).2 = false ∧
    read_myChildMask (assign_myChildMask c4Grid 9).1 0 = 9 ∧
    myChildMask_property.hasSetter = false ∧
    (set_myChildMask c4Grid.raw_myChildMask (some 9)).2 = true ∧
    (set_myChildMask none (some 9)).2 = false := by decide

/-- C8: for every data object and every ghost-zone count, spatial chunking
raises `NotImplementedError` and never yields a chunk. -/
theorem chunk_spatial_unsupported :
    ∀ (info : ChunkInfo) (ngz : ℕ),
      chunk_spatial info ngz = Except.error ChunkError.notImplemented ∧
      ∀ chunks, chunk_spatial info ngz ≠ Except.ok chunks := by
  intro info ngz
  exact ⟨rfl, fun chunks h => by simp [chunk_spatial] at h⟩

/-- C2: for every selector result (`counts`, one entry per domain, plus the
selection mask), `_identify_base_chunk` builds exactly one subset per
positive-count `(domain, count)` pair in domain order, every built subset
has a positive `cell_count`, a domain with count zero appears in no subset,
and the subsets' `cell_count`s sum to `dobj.size = sum(counts)`. -/
theorem identify_base_chunk_spec (domains : List ParticleDomainFile)
    (mask : ℕ) (counts : List ℕ)
    (hlen : domains.length = counts.length) (hnd : domains.Nodup) :
    ((identify_base_chunk domains mask counts).subsets.map
        (fun s => (s.domain, s.cell_count))
      = (domains.zip counts).filter (fun dc => 0 < dc.2)) ∧
    (∀ s ∈ (identify_base_chunk domains mask counts).subsets, 0 < s.cell_count) ∧
    (((identify_base_chunk domains mask counts).subsets.map
        (fun s => s.cell_count)).sum = (identify_base_chunk domains mask counts).size) ∧
    ((identify_base_chunk domains mask counts).size = counts.sum) ∧
    (∀ i : ℕ, ∀ h1 : i < domains.length, ∀ h2 : i < counts.length,
       counts.get ⟨i, h2⟩ = 0 →
       ∀ s ∈ (identify_base_chunk domains mask counts).subsets,
         s.domain ≠ domains.get ⟨i, h1⟩) := by
  refine ⟨?_, ?_, ?_, rfl, ?_⟩
  · simp only [identify_base_chunk, List.map_map]
    have : ((fun s : ParticleDomainSubset => (s.domain, s.cell_count)) ∘
        (fun dc : ParticleDomainFile × ℕ =>
          ({ domain := dc.1, mask := mask, cell_count := dc.2 } : ParticleDomainSubset)))
        = id := by
      funext dc
      simp
    rw [this, List.map_id]
  · intro s hs
    simp only [identify_base_chunk, List.mem_map] at hs
    obtain ⟨dc, hdc, rfl⟩ := hs
    simpa using List.of_mem_filter hdc
  · have hmap : ((identify_base_chunk domains mask counts).subsets.map
        (fun s => s.cell_count))
        = counts.filter (fun c => 0 < c) := by
      simp only [identify_base_chunk, List.map_map]
      have : ((fun s : ParticleDomainSubset => s.cell_count) ∘
          (fun dc : ParticleDomainFile × ℕ =>
            ({ domain := dc.1, mask := mask, cell_count := dc.2 } : ParticleDomainSubset)))
          = Prod.snd := by
        funext dc
        rfl
      rw [this, zip_filter_pos_map_snd domains counts hlen]
    rw [hmap, sum_filter_pos]
    rfl
  · intro i h1 h2 hzero s hs heq
    simp only [identify_base_chunk, List.mem_map] at hs
    obtain ⟨dc, hdc, rfl⟩ := hs
    have hpos : 0 < dc.2 := by simpa using List.of_mem_filter hdc
    have hmem : (dc.1, dc.2) ∈ domains.zip counts := by
      simpa using List.mem_of_mem_filter hdc
    obtain ⟨j, hj1, hj2, hjd, hjc⟩ := mem_zip_get domains counts dc.1 dc.2 hmem
    have hdd : domains.get ⟨j, hj1⟩ = domains.get ⟨i, h1⟩ := by
      rw [hjd]
      exact heq
    have hij : (⟨j, hj1⟩ : Fin domains.length) = ⟨i, h1⟩ :=
      (List.Nodup.get_inj_iff hnd).mp hdd
    have : j = i := by simpa using congrArg Fin.val hij
    subst this
    have hdc2 : dc.2 = 0 := by
      rw [← hjc]
      exact hzero
    omega
  
/-- C2 (witness): two domains with 100 and 0 matching cells produce exactly
one subset, for the 100-cell domain, and `dobj.size = 100`. -/
theorem identify_base_chunk_spec_witness :
    ((identify_base_chunk c2Domains 0 c2Counts).subsets.map
        (fun s => (s.domain, s.cell_count)) = [(c2d0, 100)]) ∧
    (identify_base_chunk c2Domains 0 c2Counts).size = 100 := by
  have h := identify_base_chunk_spec c2Domains 0 c2Counts (by decide) (by decide)
  refine ⟨?_, ?_⟩
  · rw [h.1]
    decide
  · rw [h.2.2.2.1]
    decide

/-- C6: the per-entry overlap test of `generateOverlapMasks` is exactly the
open-interval conjunction on the two in-plane axes of `axis`; it is
symmetric (if grid `A`'s mask marks `B`, then `B`'s mask computed against
`A`'s edges marks `A`); and boxes merely touching on an in-plane axis are
not marked as overlapping. -/
theorem generateOverlapMasks_symmetric (axis : Fin 3) (A B : GridEdges) :
    (generateOverlapMasks A axis [B.LeftEdge] [B.RightEdge]
      = [(decide (A.RightEdge (x_dict axis) > B.LeftEdge (x_dict axis)) &&
          decide (A.LeftEdge (x_dict axis) < B.RightEdge (x_dict axis))) &&
         (decide (A.RightEdge (y_dict axis) > B.LeftEdge (y_dict axis)) &&
          decide (A.LeftEdge (y_dict axis) < B.RightEdge (y_dict axis)))]) ∧
    (overlapEntry A axis B.LeftEdge B.RightEdge = true →
      overlapEntry B axis A.LeftEdge A.RightEdge = true) ∧
    (A.RightEdge (x_dict axis) = B.LeftEdge (x_dict axis) →
      overlapEntry A axis B.LeftEdge B.RightEdge = false) := by
  refine ⟨rfl, ?_, ?_⟩
  · simp only [overlapEntry, Bool.and_eq_true, decide_eq_true_eq]
    rintro ⟨⟨h1, h2⟩, h3, h4⟩
    exact ⟨⟨h2, h1⟩, h4, h3⟩
  · intro h
    simp [overlapEntry, h]

/-- C6 (witness): a properly overlapping pair is marked symmetrically, and a
face-touching pair is not marked. -/
theorem generateOverlapMasks_symmetric_witness :
    overlapEntry c6B 0 c6A.LeftEdge c6A.RightEdge = true ∧
    overlapEntry c6A 0 c6T.LeftEdge c6T.RightEdge = false := by
  constructor
  · apply (generateOverlapMasks_symmetric 0 c6A c6B).2.1
    simp only [overlapEntry, Bool.and_eq_true, decide_eq_true_eq]
    norm_num [c6A, c6B, x_dict, y_dict]
  · apply (generateOverlapMasks_symmetric 0 c6A c6T).2.2
    norm_num [c6A, c6T, x_dict]

/-- C9: in every run, `finalize` is called exactly once on the octree index;
every domain insertion (`_initialize_octree`, one per domain, in domain
order) precedes it, and every index query (`linearly_count`, `select_octs`,
`count_cells`) follows it. -/
theorem octree_finalize_once (ndoms nq : ℕ) :
    ∃ post : List OctEvent,
      run_trace ndoms nq
        = ((List.range ndoms).map OctEvent.insertDomain)
            ++ OctEvent.finalizeIndex :: post ∧
      OctEvent.finalizeIndex ∉ ((List.range ndoms).map OctEvent.insertDomain) ∧
      OctEvent.finalizeIndex ∉ post ∧
      (∀ e ∈ post, ∀ d, e ≠ OctEvent.insertDomain d) ∧
      (∀ e ∈ run_trace ndoms nq,
        (e = OctEvent.selectOcts ∨ e = OctEvent.countCells ∨
         e = OctEvent.linearlyCount) → e ∈ post) := by
  refine ⟨OctEvent.linearlyCount ::
      (List.range nq).flatMap (fun _ => identify_base_chunk_trace),
    ?_, ?_, ?_, ?_, ?_⟩
  · simp [run_trace, initialize_oct_handler_trace]
  · simp
  · intro h
    rcases List.mem_cons.mp h with h | h
    · exact absurd h (by simp)
    · rcases mem_query_events nq _ h with h | h <;> simp at h
  · intro e he d
    rcases List.mem_cons.mp he with h | h
    · subst h
      simp
    · rcases mem_query_events nq _ h with h | h <;> subst h <;> simp
  · intro e he hq
    have hrw : run_trace ndoms nq
        = ((List.range ndoms).map OctEvent.insertDomain)
            ++ OctEvent.finalizeIndex ::
              (OctEvent.linearlyCount ::
                (List.range nq).flatMap (fun _ => identify_base_chunk_trace)) := by
      simp [run_trace, initialize_oct_handler_trace]
    rw [hrw] at he
    rcases List.mem_append.mp he with h | h
    · obtain ⟨d, _, hd⟩ := List.mem_map.mp h
      rcases hq with rfl | rfl | rfl <;> simp at hd
    · rcases List.mem_cons.mp h with h | h
      · rcases hq with rfl | rfl | rfl <;> simp at h
      · exact h

/-- C10: for every field name matching no derivation rule — no recognized
suffix, no registry entry, no leading `k` — `generateField` raises a
`KeyError` naming the requested field and adds nothing to the grid's
resident field cache. -/
theorem generateField_unresolvable (fieldInfoKeys resident : List String)
    (fieldName : String)
    (h1 : pyEndsWith fieldName "Fraction" = false)
    (h2 : pyEndsWith fieldName "Squared" = false)
    (h3 : pyEndsWith fieldName "_vcomp" = false)
    (h4 : pyEndsWith fieldName "_tcomp" = false)
    (h5 : pyEndsWith fieldName "Abs" = false)
    (h6 : fieldName ∉ fieldInfoKeys)
    (h7 : pyStartsWith fieldName "k" = false) :
    generateField fieldInfoKeys resident fieldName = (resident, some fieldName) := by
  simp [generateField, h1, h2, h3, h4, h5, h6, h7]

/-- C10 (witness): the unknown field name `Foo` against an empty registry. -/
theorem generateField_unresolvable_witness :
    generateField [] ["Density"] "Foo" = (["Density"], some "Foo") :=
  generateField_unresolvable [] ["Density"] "Foo" (by decide) (by decide)
    (by decide) (by decide) (by decide) (by decide) (by decide)

/-- C5: for the coarse grid with `LeftEdge (0,0,0)`, `RightEdge (1,1,1)`,
`ActiveDimensions (4,4,4)` (`dx = 1/4`) and the single level-1 child with
`LeftEdge (1/4,1/4,1/4)`, `RightEdge (3/4,3/4,3/4)`, the generated child
mask is 0 exactly on the half-open index box `[1:3]` per axis (8 of the 64
cells) and 1 at every other index, the footprint being obtained by rounding
`(child edge - LeftEdge)/dx` to the nearest integer. -/
theorem generateChildMask_example : ∀ idx : Fin 3 → ℕ,
    generateChildMask c5Self c5Grids idx
      = if (∀ i, 1 ≤ idx i ∧ idx i < 3) then 0 else 1 := by
  intro idx
  have h1 : isCandidateChild c5Self
      { LeftEdge := fun _ => 0, RightEdge := fun _ => 1, Level := 0 } = false := by
    rw [Bool.eq_false_iff]
    intro hcontra
    simp only [isCandidateChild, Bool.and_eq_true, decide_eq_true_eq] at hcontra
    have := hcontra.2
    norm_num [c5Self] at this
  have h2 : isCandidateChild c5Self c5Child = true := by
    simp only [isCandidateChild, c5Self, c5Child, Bool.and_eq_true, decide_eq_true_eq]
    norm_num
  have hfilter : c5Grids.filter (fun g => isCandidateChild c5Self g) = [c5Child] := by
    simp [c5Grids, List.filter_cons, h1, h2]
  have hmask : generateChildMask c5Self c5Grids
      = applyChildToMask c5Self (fun _ => 1) c5Child := by
    unfold generateChildMask
    rw [hfilter]
    rfl
  rw [hmask]
  have hlev : ¬ ((c5Child.Level : ℤ) > c5Self.Level + 1) := by
    norm_num [c5Child, c5Self]
  simp only [applyChildToMask, if_neg hlev]
  have hsi : ∀ i : Fin 3,
      rint ((c5Child.LeftEdge i - c5Self.LeftEdge i) / c5Self.dx) = 1 := by
    intro i
    show rint ((1/4 - 0) / (1/4)) = 1
    norm_num [rint]
  have hei : ∀ i : Fin 3,
      rint ((c5Child.RightEdge i - c5Self.LeftEdge i) / c5Self.dx) = 3 := by
    intro i
    show rint ((3/4 - 0) / (1/4)) = 3
    norm_num [rint]
  have hs4 : ∀ i : Fin 3, c5Self.ActiveDimensions i = 4 := fun i => rfl
  have hn1 : sliceNorm 4 1 = 1 := by norm_num [sliceNorm]
  have hn3 : sliceNorm 4 3 = 3 := by norm_num [sliceNorm]
  have hcond : (((List.finRange 3).all fun i =>
      decide (sliceNorm (c5Self.ActiveDimensions i)
          (rint ((c5Child.LeftEdge i - c5Self.LeftEdge i) / c5Self.dx)) ≤ (idx i : ℤ)) &&
      decide ((idx i : ℤ) < sliceNorm (c5Self.ActiveDimensions i)
          (rint ((c5Child.RightEdge i - c5Self.LeftEdge i) / c5Self.dx)))) = true)
      ↔ (∀ i, 1 ≤ idx i ∧ idx i < 3) := by
    simp only [hsi, hei, hs4, hn1, hn3, List.all_eq_true, Bool.and_eq_true,
      decide_eq_true_eq]
    constructor
    · intro hq i
      have := hq i (List.mem_finRange i)
      omega
    · intro hq i _
      have := hq i
      omega
  exact if_congr hcond rfl rfl

/-- C7: with the geometry-reconstruction option enabled, `prepareGrid` on a
grid with no parent leaves the table-derived edges and cell sizes untouched
(the reconstruction never runs), and on a grid with a parent halves the
parent's cell sizes, snaps `LeftEdge` to the nearest parent-cell boundary
and rebuilds `RightEdge` as `LeftEdge + ActiveDimensions * dx`. -/
theorem prepareGrid_reconstruction (h : HierarchyTables) (id : ℕ) :
    ((prepareGridBase h id).Parent = none →
      prepareGrid true h id = prepareGridBase h id) ∧
    (∀ p, (prepareGridBase h id).Parent = some p →
      (prepareGrid true h id).dx = p.dx / 2 ∧
      (prepareGrid true h id).dy = p.dy / 2 ∧
      (prepareGrid true h id).dz = p.dz / 2 ∧
      (∀ i, (prepareGrid true h id).LeftEdge i
        = p.LeftEdge i + p.dx *
            ((rint (((prepareGridBase h id).LeftEdge i - p.LeftEdge i) / p.dx) : ℤ) : ℚ)) ∧
      (∀ i, (prepareGrid true h id).RightEdge i
        = (prepareGrid true h id).LeftEdge i
            + ((prepareGridBase h id).ActiveDimensions i : ℚ) * (prepareGrid true h id).dx)) := by
  constructor
  · intro hp
    simp [prepareGrid, hp]
  · intro p hp
    simp [prepareGrid, hp]

/-- C7 (witness): in the two-grid hierarchy `c7Tables`, grid 1 (no parent)
is returned unreconstructed and grid 2 (parent `c7Parent`) gets half the
parent's x cell size. -/
theorem prepareGrid_reconstruction_witness :
    prepareGrid true c7Tables 1 = prepareGridBase c7Tables 1 ∧
    (prepareGrid true c7Tables 2).dx = c7Parent.dx / 2 :=
  ⟨(prepareGrid_reconstruction c7Tables 1).1 rfl,
   ((prepareGrid_reconstruction c7Tables 2).2 c7Parent rfl).1⟩
